import Mathlib

/-!
Shallow embedding of the lexpertchatai retrieval-and-answer pipeline.

The definitions below are translated from the repository's Python sources:
  - `src/src/config/settings.py` (configuration constants),
  - `src/src/db/supabase.py` (`SupabaseVectorStore`: `store_document`,
    `similarity_search`, `delete_document`),
  - `src/src/core/rag_pipeline.py` (`RAGPipeline.query`),
  - `src/src/backend/rag/pipeline.py` (`auto_tag`, `get_prompt_coach`),
  - `src/backend/app/services/storage_service.py` (`upload_file`).

Database tables are modelled as in-memory lists of rows; the external
Supabase client is modelled as an oracle (`DB`) whose two queries may fail,
matching the `try`/`except` structure of the Python code.  Redis caching is
modelled as disabled: in `src/src/db/supabase.py` the module-level
`redis_client` is `None` whenever `REDIS_URL` is unset (the default
configuration), in which case every `if redis_client:` branch is skipped.
Python `str.lower` is modelled character-wise via `Char.toLower`.
-/

/-- Configuration constant from `src/src/config/settings.py` line 28. -/
def VECTOR_DIMENSION : Nat := 1536

/-- Configuration constant from `src/src/config/settings.py` line 29. -/
def CHUNK_SIZE : Nat := 500

/-- Configuration constant from `src/src/config/settings.py` line 30. -/
def CHUNK_OVERLAP : Nat := 50

/-- Configuration constant from `src/src/config/settings.py` line 33:
the Python literal `0.85`, as the rational 85/100. -/
def CONFIDENCE_THRESHOLD : ℚ := mkRat 85 100

/-- Configuration constant from `src/src/config/settings.py` line 34. -/
def SUPPORTED_TAGS : List String := ["petition", "office_action", "example"]

/-- Helper for the Python `in` operator on strings: `leadsWith p s` is true
when the character list `p` is an initial segment of `s`. -/
def leadsWith : List Char → List Char → Bool
  | [], _ => true
  | _ :: _, [] => false
  | p :: ps, c :: cs => p == c && leadsWith ps cs

/-- Helper for the Python `in` operator on strings: `occursIn p s` is true
when the character list `p` occurs contiguously inside `s`. -/
def occursIn (pat : List Char) : List Char → Bool
  | [] => pat.isEmpty
  | c :: cs => leadsWith pat (c :: cs) || occursIn pat cs

/-- The Python expression `pat in s` on strings. -/
def containsStr (s pat : String) : Bool := occursIn pat.data s.data

/-- The Python expression `s.lower()`, modelled character-wise. -/
def lowerStr (s : String) : String := ⟨s.data.map Char.toLower⟩

/-- A row of the `documents` table (`src/src/db/supabase.py`). -/
structure DocRow where
  id : String
  content : String
  metadata : List (String × String)
deriving DecidableEq

/-- A row of the `document_vectors` table (`src/src/db/supabase.py`). -/
structure VectorRow where
  document_id : String
  embedding : List ℚ
deriving DecidableEq

/-- The two tables behind `SupabaseVectorStore`. -/
structure Store where
  documents : List DocRow
  document_vectors : List VectorRow
deriving DecidableEq

/-- One element of the list returned by `similarity_search`
(the dict `{content, metadata, id}` built at `src/src/db/supabase.py`
lines 115-122). -/
structure SearchResult where
  content : String
  metadata : List (String × String)
  id : String
deriving DecidableEq

/-- The Supabase client as seen by `similarity_search`: the two table queries
it issues, each of which may raise (modelled as `Except.error`).
`selectVectors k` is `table("document_vectors").select("document_id").limit(k)`;
`selectDocsIn ids` is `table("documents").select("*").in_("id", ids)`. -/
structure DB where
  selectVectors : Nat → Except String (List VectorRow)
  selectDocsIn : List String → Except String (List DocRow)

/-- The honest client over an in-memory store: `limit k` returns the first
`k` rows in insertion order and `in_("id", ids)` filters the documents table
in table order; neither raises. -/
def Store.db (st : Store) : DB where
  selectVectors k := .ok (st.document_vectors.take k)
  selectDocsIn ids := .ok (st.documents.filter (fun d => ids.contains d.id))

/-- `SupabaseVectorStore.similarity_search` (`src/src/db/supabase.py`
lines 66-137), Redis disabled.  The code only ever runs the fallback direct
query: it selects the first `top_k` rows of `document_vectors`, then fetches
the referenced documents.  The `query_embedding` and `metadata_filter`
arguments are placed in the `params` dict built for an RPC that is never
invoked, so neither influences the result; any exception from either query
is caught and yields the empty list (lines 126-128). -/
def similarity_search (db : DB) (query_embedding : List ℚ) (top_k : Nat)
    (metadata_filter : Option (List (String × String))) : List SearchResult :=
  match db.selectVectors top_k with
  | .error _ => []
  | .ok rows =>
    let doc_ids := rows.map (fun r => r.document_id)
    if doc_ids.isEmpty then []
    else
      match db.selectDocsIn doc_ids with
      | .error _ => []
      | .ok docs => docs.map (fun d => { content := d.content, metadata := d.metadata, id := d.id })

/-- `SupabaseVectorStore.delete_document` (`src/src/db/supabase.py`
lines 139-149): delete the `document_vectors` rows with `document_id = doc_id`,
then the `documents` row with `id = doc_id`. -/
def delete_document (st : Store) (doc_id : String) : Store :=
  { documents := st.documents.filter (fun d => !(d.id == doc_id)),
    document_vectors := st.document_vectors.filter (fun v => !(v.document_id == doc_id)) }

/-- `SupabaseVectorStore.store_document` (`src/src/db/supabase.py`
lines 35-64): reject embeddings of the wrong dimension before any insert,
otherwise insert the document row and then its vector row.  `generated_id`
models the id the database generates when `doc_id` is not supplied. -/
def store_document (st : Store) (content : String) (metadata : List (String × String))
    (embeddings : List ℚ) (doc_id : Option String) (generated_id : String) :
    Except String (String × Store) :=
  if embeddings.length ≠ VECTOR_DIMENSION then
    .error ("Embedding dimension must be " ++ toString VECTOR_DIMENSION)
  else
    let the_id := match doc_id with
      | some i => i
      | none => generated_id
    let st1 : Store := { st with documents := st.documents ++ [⟨the_id, content, metadata⟩] }
    let st2 : Store := { st1 with document_vectors := st1.document_vectors ++ [⟨the_id, embeddings⟩] }
    .ok (the_id, st2)

/-- Whether a document's metadata satisfies a metadata filter: every
key/value pair of the filter is present in the metadata.  (This is the
intended reading of the unused `filter_metadata` RPC parameter of
`similarity_search`; the fallback query applies no such filter.) -/
def docPassesFilter (metadata_filter : Option (List (String × String)))
    (metadata : List (String × String)) : Bool :=
  match metadata_filter with
  | none => true
  | some kvs => kvs.all (fun kv => metadata.contains kv)

/-- Inner product of two embeddings, for stating similarity orderings. -/
def dotProduct (xs ys : List ℚ) : ℚ := (List.zipWith (fun a b => a * b) xs ys).sum

/-- The fixed no-retrieval answer of `RAGPipeline.query`
(`src/src/core/rag_pipeline.py` lines 112-117). -/
def insufficientAnswer : String :=
  "I couldn\x27t find any relevant information in the database to answer your question. Please try a different question or upload relevant documents first."

/-- The `context` string of `RAGPipeline.query` (lines 120-123):
`"\n\n".join(f"Source {i+1}:\n{doc[content]}" ...)`. -/
def buildContext (results : List SearchResult) : String :=
  String.intercalate "\n\n"
    ((results.enum).map (fun p => "Source " ++ toString (p.1 + 1) ++ ":\n" ++ p.2.content))

/-- The prompt constructed by `RAGPipeline.query` (lines 126-133). -/
def buildPrompt (query : String) (results : List SearchResult) : String :=
  "You are a legal assistant helping with document analysis. Use the following sources to answer the question. Include specific citations to the sources used.\n\nSources:\n"
    ++ buildContext results
    ++ "\n\nQuestion: " ++ query
    ++ "\n\nAnswer: Let me help you with that based on the provided sources."

/-- The dict returned by `RAGPipeline.query`. -/
structure QueryAnswer where
  answer : String
  sources : List (String × List (String × String))
deriving DecidableEq

/-- The answer-composition part of `RAGPipeline.query` (lines 110-151),
given the retrieval results: with no results the fixed message and empty
sources, otherwise the chat-completion output on the constructed prompt
together with the sources list.  The language-model call is the oracle
`llm`. -/
def ragAnswer (llm : String → String) (query : String) (results : List SearchResult) :
    QueryAnswer :=
  if results.isEmpty then
    { answer := insufficientAnswer, sources := [] }
  else
    { answer := llm (buildPrompt query results),
      sources := results.map (fun d => (d.content, d.metadata)) }

/-- `RAGPipeline.query` (`src/src/core/rag_pipeline.py` lines 86-151):
embed the query, retrieve with the default `top_k = 5`, then compose the
answer.  `embed` is the external embedder. -/
def RAGPipeline_query (db : DB) (embed : String → List ℚ) (llm : String → String)
    (query : String) (metadata_filter : Option (List (String × String))) : QueryAnswer :=
  ragAnswer llm query (similarity_search db (embed query) 5 metadata_filter)

/-- `auto_tag` (`src/src/backend/rag/pipeline.py` lines 84-119): keyword
tags collected in fixed order, the default tag `"document"` when none
matched, and confidence 0.85 unless the first tag is the default, in which
case 0.65. -/
def auto_tag (content : String) : List String × ℚ :=
  let content_lower := lowerStr content
  let tags : List String :=
    (if containsStr content_lower "petition" then ["petition"] else []) ++
    (if containsStr content_lower "affidavit" then ["affidavit"] else []) ++
    (if containsStr content_lower "custody" || containsStr content_lower "child"
      then ["custody"] else []) ++
    (if containsStr content_lower "trademark" || containsStr content_lower "uspto"
      then ["trademark"] else [])
  let tags := if tags.isEmpty then ["document"] else tags
  let confidence : ℚ := if tags.headD "document" ≠ "document" then mkRat 85 100 else mkRat 65 100
  (tags, confidence)

/-- `get_prompt_coach` (`src/src/backend/rag/pipeline.py` lines 121-145):
a length rule, then a drafting-citation rule, then a summarize rule. -/
def get_prompt_coach (prompt : String) : Option String :=
  let prompt_lower := lowerStr prompt
  if prompt_lower.length < 10 then
    some "Try to be more specific in your request."
  else if containsStr prompt_lower "draft" &&
      !(containsStr prompt_lower "cite" || containsStr prompt_lower "using" ||
        containsStr prompt_lower "based on") then
    some "Try adding a citation, e.g., \x27cite Texas §153.002\x27"
  else if containsStr prompt_lower "summarize" &&
      !(containsStr prompt_lower "document" || containsStr prompt_lower "file" ||
        containsStr prompt_lower "report") then
    some "Specify which document to summarize, e.g., \x27summarize the affidavit\x27"
  else
    none

/-- Modelled from the spec: the Chunker of §4.1.  `RAGPipeline.process_document`
(`src/src/core/rag_pipeline.py` line 68) delegates chunking to langchain's
`TokenTextSplitter(chunk_size=CHUNK_SIZE, chunk_overlap=CHUNK_OVERLAP)`, a
third-party library whose code is not in this repository.  Per the spec, the
chunker emits ordered token windows of at most `size` tokens in which each
window after the first repeats the last `overlap` tokens of its predecessor,
and the final window may be shorter. -/
def chunkTokens {α : Type} (size overlap : Nat) (ts : List α) : List (List α) :=
  if ts.isEmpty then []
  else if ts.length ≤ size ∨ size ≤ overlap then [ts]
  else ts.take size :: chunkTokens size overlap (ts.drop (size - overlap))
termination_by ts.length
decreasing_by
  simp only [List.isEmpty_iff, not_or, not_le] at *
  simp only [List.length_drop]
  cases ts with
  | nil => simp_all
  | cons a l => simp only [List.length_cons] at *; omega

/-- Reconstruction of a document from its chunks: keep the first chunk whole
and drop the leading `overlap` tokens of every later chunk (the spec's
"concatenating chunks, de-duplicating overlap"). -/
def reconstructChunks {α : Type} (overlap : Nat) : List (List α) → List α
  | [] => []
  | c :: cs => c ++ (cs.map (fun d => d.drop overlap)).flatten

/-- The outcomes of the external steps of `upload_file`
(`src/backend/app/services/storage_service.py` lines 125-270): base64
decoding, `create_bucket`, the blob upload, the signed-URL request, and the
database insert.  `file_path` is the generated timestamp/uuid path of
line 165. -/
structure UploadEnv where
  decodeResult : Except String (List Nat)
  bucketStatus : Except String Unit
  uploadResult : Except String Unit
  signedUrl : Except String String
  dbInsert : Except String Unit
  file_path : String

/-- The response dict of `upload_file`. -/
structure UploadResult where
  success : Bool
  fileName : Option String
  filePath : Option String
  fileUrl : Option String
  message : Option String
  error : Option String
deriving DecidableEq

/-- `upload_file` (`src/backend/app/services/storage_service.py`
lines 125-270): each failing step short-circuits with `success: False`,
except a failed signed-URL request (which falls back to a relative URL) and
a failed database insert after a successful blob upload, which still
reports `success: True` with a warning message (lines 245-255). -/
def upload_file (env : UploadEnv) (file_name : String) : UploadResult :=
  match env.decodeResult with
  | .error e =>
    { success := false, fileName := none, filePath := none, fileUrl := none,
      message := none, error := some ("Failed to decode file content: " ++ e) }
  | .ok _ =>
    match env.bucketStatus with
    | .error e =>
      { success := false, fileName := none, filePath := none, fileUrl := none,
        message := none, error := some ("Failed to ensure storage bucket exists: " ++ e) }
    | .ok _ =>
      match env.uploadResult with
      | .error e =>
        { success := false, fileName := none, filePath := none, fileUrl := none,
          message := none, error := some ("File upload failed: " ++ e) }
      | .ok _ =>
        let file_url := match env.signedUrl with
          | .ok u => u
          | .error _ => "/documents/" ++ env.file_path
        match env.dbInsert with
        | .ok _ =>
          { success := true, fileName := some file_name, filePath := some env.file_path,
            fileUrl := some file_url,
            message := some "File uploaded successfully", error := none }
        | .error _ =>
          { success := true, fileName := some file_name, filePath := some env.file_path,
            fileUrl := some file_url,
            message := some "File uploaded successfully, but database record creation failed",
            error := none }

/-! Theorems settling the claims. -/

/-- C3: for every document id, `delete_document` removes every vector row
referencing that document and the document row itself, so after the
operation no orphaned chunk/embedding rows referencing that document remain
in the store. -/
theorem delete_document_no_orphans (st : Store) (doc_id : String) :
    (∀ v ∈ (delete_document st doc_id).document_vectors, v.document_id ≠ doc_id) ∧
    (∀ d ∈ (delete_document st doc_id).documents, d.id ≠ doc_id) := by
  constructor
  · intro v hv
    simp only [delete_document, List.mem_filter, Bool.not_eq_eq_eq_not, Bool.not_true,
      beq_eq_false_iff_ne, ne_eq] at hv
    exact hv.2
  · intro d hd
    simp only [delete_document, List.mem_filter, Bool.not_eq_eq_eq_not, Bool.not_true,
      beq_eq_false_iff_ne, ne_eq] at hd
    exact hd.2

/-- Witness for C3 at a concrete two-document store. -/
theorem delete_document_no_orphans_witness : ("d2" : String) ≠ "d1" :=
  (delete_document_no_orphans
      ⟨[⟨"d1", "c1", []⟩, ⟨"d2", "c2", []⟩], [⟨"d1", [1]⟩, ⟨"d2", [2]⟩]⟩ "d1").1
    ⟨"d2", [2]⟩ (by decide)

/-- C9: calling `store_document` with an embeddings list whose length is not
`VECTOR_DIMENSION` (1536) yields the `ValueError` before any insert: the
result is the error value, so no document row and no vector row is produced
(the returned `Except` carries no updated store). -/
theorem store_document_dimension_check (st : Store) (content : String)
    (metadata : List (String × String)) (embeddings : List ℚ)
    (doc_id : Option String) (generated_id : String)
    (h : embeddings.length ≠ VECTOR_DIMENSION) :
    store_document st content metadata embeddings doc_id generated_id =
      .error ("Embedding dimension must be " ++ toString VECTOR_DIMENSION) := by
  simp [store_document, h]

/-- Witness for C9 at the empty embeddings list. -/
theorem store_document_dimension_check_witness :
    store_document ⟨[], []⟩ "c" [] [] none "gen" =
      .error ("Embedding dimension must be " ++ toString VECTOR_DIMENSION) :=
  store_document_dimension_check ⟨[], []⟩ "c" [] [] none "gen" (by decide)

/-- C10: `similarity_search` never propagates an exception of the underlying
store: if either table query fails, the caught exception yields the empty
list, which coincides with the result on a genuinely empty index — a caller
cannot distinguish the two. -/
theorem similarity_search_swallows_errors (db : DB) (query_embedding : List ℚ)
    (top_k : Nat) (metadata_filter : Option (List (String × String)))
    (h : (∃ e, db.selectVectors top_k = .error e) ∨
         (∃ rows e, db.selectVectors top_k = .ok rows ∧
            db.selectDocsIn (rows.map (fun r => r.document_id)) = .error e)) :
    similarity_search db query_embedding top_k metadata_filter = [] ∧
    similarity_search db query_embedding top_k metadata_filter =
      similarity_search (Store.db ⟨[], []⟩) query_embedding top_k metadata_filter := by
  have hempty :
      similarity_search (Store.db ⟨[], []⟩) query_embedding top_k metadata_filter = [] := by
    simp [similarity_search, Store.db]
  have hmain : similarity_search db query_embedding top_k metadata_filter = [] := by
    rcases h with ⟨e, he⟩ | ⟨rows, e, hok, herr⟩
    · simp [similarity_search, he]
    · simp [similarity_search, hok, herr]
  exact ⟨hmain, by rw [hmain, hempty]⟩

/-- Witness-only client whose queries always raise. -/
def failingDB : DB where
  selectVectors _ := .error "connection refused"
  selectDocsIn _ := .error "connection refused"

/-- Witness for C10 at a client whose vector query raises. -/
theorem similarity_search_swallows_errors_witness :
    similarity_search failingDB [1] 5 none = [] :=
  (similarity_search_swallows_errors failingDB [1] 5 none
    (Or.inl ⟨"connection refused", rfl⟩)).1

/-- C6: when decoding, bucket creation and the blob upload all succeed but
the database record insert fails, `upload_file` still reports
`success: True` with the file name, path and URL, plus the warning message
noting the record failure, and no error field. -/
theorem upload_file_partial_success (env : UploadEnv) (file_name : String)
    (bs : List Nat) (e : String)
    (hdec : env.decodeResult = .ok bs) (hbkt : env.bucketStatus = .ok ())
    (hup : env.uploadResult = .ok ()) (hdb : env.dbInsert = .error e) :
    (upload_file env file_name).success = true ∧
    (upload_file env file_name).fileName = some file_name ∧
    (upload_file env file_name).filePath = some env.file_path ∧
    (upload_file env file_name).fileUrl.isSome = true ∧
    (upload_file env file_name).message =
      some "File uploaded successfully, but database record creation failed" ∧
    (upload_file env file_name).error = none := by
  simp [upload_file, hdec, hbkt, hup, hdb]

/-- Witness for C6 at a concrete environment whose database insert fails. -/
theorem upload_file_partial_success_witness :
    (upload_file
        ⟨.ok [1, 2], .ok (), .ok (), .ok "https://signed", .error "db down", "17_ab_report.pdf"⟩
        "report.pdf").success = true ∧
    (upload_file
        ⟨.ok [1, 2], .ok (), .ok (), .ok "https://signed", .error "db down", "17_ab_report.pdf"⟩
        "report.pdf").message =
      some "File uploaded successfully, but database record creation failed" :=
  ⟨(upload_file_partial_success
      ⟨.ok [1, 2], .ok (), .ok (), .ok "https://signed", .error "db down", "17_ab_report.pdf"⟩
      "report.pdf" [1, 2] "db down" rfl rfl rfl rfl).1,
   (upload_file_partial_success
      ⟨.ok [1, 2], .ok (), .ok (), .ok "https://signed", .error "db down", "17_ab_report.pdf"⟩
      "report.pdf" [1, 2] "db down" rfl rfl rfl rfl).2.2.2.2.1⟩

/-- Length is preserved by the character-wise lowering. -/
theorem lowerStr_length (s : String) : (lowerStr s).length = s.length := by
  show (s.data.map Char.toLower).length = s.length
  rw [List.length_map]
  rfl

/-- C8: `get_prompt_coach` on the prompt `"draft a response"` returns the
citation-structuring suggestion (its text mentions adding a citation), and
on every prompt of fewer than 10 characters it returns the
be-more-specific suggestion. -/
theorem prompt_coach_draft_and_short :
    (get_prompt_coach "draft a response" =
        some "Try adding a citation, e.g., \x27cite Texas §153.002\x27" ∧
      containsStr "Try adding a citation, e.g., \x27cite Texas §153.002\x27" "citation" = true) ∧
    ∀ p : String, p.length < 10 →
      get_prompt_coach p = some "Try to be more specific in your request." := by
  refine ⟨⟨by decide, by decide⟩, ?_⟩
  intro p hp
  have h10 : (lowerStr p).length < 10 := by rw [lowerStr_length]; exact hp
  unfold get_prompt_coach
  rw [if_pos h10]

/-- Witness for C8 at the prompt `"hi"`. -/
theorem prompt_coach_draft_and_short_witness :
    get_prompt_coach "hi" = some "Try to be more specific in your request." :=
  prompt_coach_draft_and_short.2 "hi" (by decide)

/-- Whether a document text contains one of the keywords `auto_tag`
actually matches on (`src/src/backend/rag/pipeline.py` lines 100-110). -/
def hasAutoTagKeyword (content : String) : Bool :=
  containsStr (lowerStr content) "petition" || containsStr (lowerStr content) "affidavit" ||
  containsStr (lowerStr content) "custody" || containsStr (lowerStr content) "child" ||
  containsStr (lowerStr content) "trademark" || containsStr (lowerStr content) "uspto"

/-- C4 counterexample: a document containing the phrases `"office action"`
and `"TMEP"` is tagged `"document"` at confidence 0.65 by `auto_tag`, not
`"office_action"`: `auto_tag` has no `office_action` tag and matches none of
its keywords in this text. -/
theorem auto_tag_office_action_cex :
    containsStr "my office action and TMEP" "office action" = true ∧
    containsStr "my office action and TMEP" "TMEP" = true ∧
    auto_tag "my office action and TMEP" = (["document"], mkRat 65 100) ∧
    ¬("office_action" ∈ (auto_tag "my office action and TMEP").1) := by
  exact ⟨by decide, by decide, by decide, by decide⟩

/-- C4 amended: `auto_tag` on a document containing `"custody petition"`
returns the tag list `["petition", "custody"]` — headed by `"petition"` — at
confidence 0.85; and on every document containing none of its keywords
(petition, affidavit, custody, child, trademark, uspto) — which includes
documents whose only exemplar phrases are `"office action"` and `"TMEP"` —
it returns the default tag `"document"` at confidence 0.65, below the
configured 0.85 threshold. -/
theorem auto_tag_amended_behavior :
    ((auto_tag "custody petition").1 = ["petition", "custody"] ∧
      (auto_tag "custody petition").2 = CONFIDENCE_THRESHOLD) ∧
    ∀ content : String, hasAutoTagKeyword content = false →
      auto_tag content = (["document"], mkRat 65 100) ∧
        mkRat 65 100 < CONFIDENCE_THRESHOLD := by
  refine ⟨⟨by decide, by decide⟩, ?_⟩
  intro content h
  simp only [hasAutoTagKeyword, Bool.or_eq_false_iff] at h
  obtain ⟨⟨⟨⟨⟨h1, h2⟩, h3⟩, h4⟩, h5⟩, h6⟩ := h
  refine ⟨?_, by decide⟩
  simp [auto_tag, h1, h2, h3, h4, h5, h6]

/-- Witness for C4's amended theorem at a keyword-free document. -/
theorem auto_tag_amended_behavior_witness :
    auto_tag "hello world" = (["document"], mkRat 65 100) :=
  (auto_tag_amended_behavior.2 "hello world" (by decide)).1

/-- C1 counterexample: in a store whose only document fails the metadata
filter, `similarity_search` nevertheless returns that document — the
fallback query ignores `metadata_filter` — so "no document passing the
filter" does not give the empty result the claim asserts. -/
theorem similarity_search_filter_cex :
    ((⟨[⟨"d1", "c1", [("tag", "petition")]⟩], [⟨"d1", [1, 0]⟩]⟩ : Store).documents.all
        (fun d => !(docPassesFilter (some [("tag", "office_action")]) d.metadata)) = true) ∧
    similarity_search (Store.db ⟨[⟨"d1", "c1", [("tag", "petition")]⟩], [⟨"d1", [1, 0]⟩]⟩)
        [0, 1] 5 (some [("tag", "office_action")]) ≠ [] := by
  exact ⟨by decide, by decide⟩

/-- C1 amended: on a store with no stored vector rows (in particular an
empty index), `similarity_search` returns the empty list rather than
raising, and `RAGPipeline.query` then returns the fixed
insufficient-information answer with an empty sources list; its result does
not depend on the language-model oracle `llm`, so the model is not
consulted.  (When documents exist but all fail the metadata filter, the
filter is ignored and the result need not be empty — see the
counterexample.) -/
theorem empty_index_query_insufficient (st : Store) (query_embedding : List ℚ)
    (top_k : Nat) (metadata_filter : Option (List (String × String)))
    (embed : String → List ℚ) (llm : String → String) (question : String)
    (h : st.document_vectors = []) :
    similarity_search st.db query_embedding top_k metadata_filter = [] ∧
    RAGPipeline_query st.db embed llm question metadata_filter =
      { answer := insufficientAnswer, sources := [] } := by
  have h1 : ∀ (qe : List ℚ) (k : Nat), similarity_search st.db qe k metadata_filter = [] := by
    intro qe k
    simp [similarity_search, Store.db, h]
  refine ⟨h1 query_embedding top_k, ?_⟩
  rw [RAGPipeline_query, h1 (embed question) 5]
  simp [ragAnswer]

/-- Witness for C1's amended theorem at the empty store. -/
theorem empty_index_query_insufficient_witness :
    similarity_search (Store.db ⟨[], []⟩) [1] 5 none = [] ∧
    RAGPipeline_query (Store.db ⟨[], []⟩) (fun _ => [1]) (fun _ => "model output") "q" none =
      { answer := insufficientAnswer, sources := [] } :=
  empty_index_query_insufficient ⟨[], []⟩ [1] 5 none (fun _ => [1]) (fun _ => "model output")
    "q" rfl

/-- Store for C2's counterexample: the second stored vector is more similar
to the query `[1, 0]` than the first. -/
def orderCexStore : Store :=
  { documents := [⟨"d1", "c1", []⟩, ⟨"d2", "c2", []⟩],
    document_vectors := [⟨"d1", [0, 1]⟩, ⟨"d2", [1, 0]⟩] }

/-- C2 counterexample: `similarity_search` returns `d1` before `d2` (table
order) although `d2`'s stored embedding has strictly greater inner-product
similarity to the query — and, both embeddings being unit vectors, strictly
greater cosine similarity — so the result is not ordered by decreasing
similarity. -/
theorem similarity_search_order_cex :
    ((similarity_search (Store.db orderCexStore) [1, 0] 5 none).map (fun r => r.id) =
      ["d1", "d2"]) ∧
    orderCexStore.document_vectors = [⟨"d1", [0, 1]⟩, ⟨"d2", [1, 0]⟩] ∧
    dotProduct [1, 0] [0, 1] < dotProduct [1, 0] [1, 0] := by
  refine ⟨by decide, rfl, by norm_num [dotProduct]⟩

/-- C2 amended: when document ids are unique, `similarity_search` returns at
most `top_k` results, and every result carries the content and metadata of
the stored document row it references, that row's id being among the first
`top_k` vector rows in storage order.  The results are in documents-table
order, not similarity order — the query embedding never enters the
computation (see the counterexample). -/
theorem similarity_search_topk_metadata (st : Store) (query_embedding : List ℚ)
    (top_k : Nat) (metadata_filter : Option (List (String × String)))
    (hnodup : (st.documents.map (fun d => d.id)).Nodup) :
    (similarity_search st.db query_embedding top_k metadata_filter).length ≤ top_k ∧
    ∀ r ∈ similarity_search st.db query_embedding top_k metadata_filter,
      ∃ d ∈ st.documents,
        r.id = d.id ∧ r.content = d.content ∧ r.metadata = d.metadata ∧
        d.id ∈ (st.document_vectors.take top_k).map (fun r => r.document_id) := by
  have hres0 : similarity_search st.db query_embedding top_k metadata_filter =
      if ((st.document_vectors.take top_k).map (fun r => r.document_id)).isEmpty then []
      else
        (st.documents.filter
            (fun d => ((st.document_vectors.take top_k).map (fun r => r.document_id)).contains d.id)).map
          (fun d => { content := d.content, metadata := d.metadata, id := d.id }) := rfl
  by_cases hie : ((st.document_vectors.take top_k).map (fun r => r.document_id)).isEmpty
  · rw [hres0, if_pos hie]
    exact ⟨by simp, by simp⟩
  · rw [hres0, if_neg hie]
    constructor
    · rw [List.length_map]
      have hsub :
          List.Sublist
            ((st.documents.filter
              (fun d => ((st.document_vectors.take top_k).map (fun r => r.document_id)).contains d.id)).map
                (fun d => d.id))
            (st.documents.map (fun d => d.id)) :=
        (List.filter_sublist _).map _
      have hnd := hnodup.sublist hsub
      have hsubset :
          ((st.documents.filter
            (fun d => ((st.document_vectors.take top_k).map (fun r => r.document_id)).contains d.id)).map
              (fun d => d.id)) ⊆
            ((st.document_vectors.take top_k).map (fun r => r.document_id)) := by
        intro x hx
        simp only [List.mem_map, List.mem_filter] at hx
        obtain ⟨d, ⟨_, hdc⟩, rfl⟩ := hx
        simpa using hdc
      have hlen := (hnd.subperm hsubset).length_le
      rw [List.length_map] at hlen
      calc (st.documents.filter
              (fun d => ((st.document_vectors.take top_k).map (fun r => r.document_id)).contains d.id)).length
          ≤ ((st.document_vectors.take top_k).map (fun r => r.document_id)).length := hlen
        _ ≤ top_k := by rw [List.length_map]; exact List.length_take_le _ _
    · intro r hr
      simp only [List.mem_map, List.mem_filter] at hr
      obtain ⟨d, ⟨hd, hdc⟩, rfl⟩ := hr
      refine ⟨d, hd, rfl, rfl, rfl, ?_⟩
      simpa using hdc

/-- Witness for C2's amended theorem at a concrete two-document store. -/
theorem similarity_search_topk_metadata_witness :
    (similarity_search (Store.db orderCexStore) [1, 0] 5 none).length ≤ 5 :=
  (similarity_search_topk_metadata orderCexStore [1, 0] 5 none (by decide)).1

/-- Dropping the leading `overlap` tokens of every chunk and flattening
recovers the input minus its first `overlap` tokens. -/
theorem chunkTokens_flatten_drop {α : Type} (size overlap : Nat) (hov : overlap < size)
    (us : List α) :
    ((chunkTokens size overlap us).map (fun c => c.drop overlap)).flatten = us.drop overlap := by
  rw [chunkTokens]
  by_cases hnil : us.isEmpty
  · rw [if_pos hnil]
    rw [List.isEmpty_iff.mp hnil]
    simp
  · rw [if_neg hnil]
    by_cases hle : us.length ≤ size ∨ size ≤ overlap
    · rw [if_pos hle]
      simp
    · rw [if_neg hle]
      push_neg at hle
      obtain ⟨hgt, hov2⟩ := hle
      have ih := chunkTokens_flatten_drop size overlap hov (us.drop (size - overlap))
      simp only [List.map_cons, List.flatten_cons, ih]
      rw [List.drop_drop]
      have h1 : size - overlap + overlap = size := by omega
      rw [h1]
      rw [List.drop_take]
      have h2 : us.drop size = (us.drop overlap).drop (size - overlap) := by
        rw [List.drop_drop]
        have h3 : overlap + (size - overlap) = size := by omega
        rw [h3]
      rw [h2, List.take_append_drop]
termination_by us.length
decreasing_by
  simp only [List.isEmpty_iff] at hnil
  have hpos : 0 < us.length := List.length_pos.mpr hnil
  simp only [List.length_drop]
  omega

/-- Reconstruction after chunking is the identity whenever the configured
overlap is smaller than the chunk size. -/
theorem chunkTokens_reconstruct {α : Type} (size overlap : Nat) (hov : overlap < size)
    (ts : List α) :
    reconstructChunks overlap (chunkTokens size overlap ts) = ts := by
  rw [chunkTokens]
  by_cases hnil : ts.isEmpty
  · rw [if_pos hnil, List.isEmpty_iff.mp hnil]
    rfl
  · rw [if_neg hnil]
    by_cases hle : ts.length ≤ size ∨ size ≤ overlap
    · rw [if_pos hle]
      simp [reconstructChunks]
    · rw [if_neg hle]
      rw [reconstructChunks]
      rw [chunkTokens_flatten_drop size overlap hov]
      rw [List.drop_drop]
      have h1 : size - overlap + overlap = size := by omega
      rw [h1, List.take_append_drop]

/-- Every chunk the chunker produces is nonempty. -/
theorem chunkTokens_ne_nil {α : Type} (size overlap : Nat) (ts : List α) :
    ∀ c ∈ chunkTokens size overlap ts, c ≠ [] := by
  intro c hc
  rw [chunkTokens] at hc
  by_cases hnil : ts.isEmpty
  · rw [if_pos hnil] at hc
    simp at hc
  · rw [if_neg hnil] at hc
    by_cases hle : ts.length ≤ size ∨ size ≤ overlap
    · rw [if_pos hle] at hc
      rw [List.mem_singleton] at hc
      subst hc
      intro habs
      rw [habs] at hnil
      exact hnil rfl
    · rw [if_neg hle] at hc
      push_neg at hle
      obtain ⟨hgt, hov2⟩ := hle
      rcases List.mem_cons.mp hc with hc1 | hc2
      · subst hc1
        intro habs
        have h0 : (ts.take size).length = 0 := by rw [habs]; rfl
        rw [List.length_take] at h0
        omega
      · exact chunkTokens_ne_nil size overlap (ts.drop (size - overlap)) c hc2
termination_by ts.length
decreasing_by
  simp only [List.isEmpty_iff] at hnil
  have hpos : 0 < ts.length := List.length_pos.mpr hnil
  simp only [List.length_drop]
  omega

/-- C5: with the configured `CHUNK_SIZE` (500) and `CHUNK_OVERLAP` (50),
concatenating the chunks in order while de-duplicating the token overlap of
consecutive chunks recovers the original token sequence exactly, and no
produced chunk is empty. -/
theorem chunk_roundtrip_nonempty {α : Type} (ts : List α) :
    reconstructChunks CHUNK_OVERLAP (chunkTokens CHUNK_SIZE CHUNK_OVERLAP ts) = ts ∧
    ∀ c ∈ chunkTokens CHUNK_SIZE CHUNK_OVERLAP ts, c ≠ [] :=
  ⟨chunkTokens_reconstruct CHUNK_SIZE CHUNK_OVERLAP (by decide) ts,
   chunkTokens_ne_nil CHUNK_SIZE CHUNK_OVERLAP ts⟩

/-- Witness for C5 at a concrete three-token document. -/
theorem chunk_roundtrip_nonempty_witness :
    reconstructChunks CHUNK_OVERLAP (chunkTokens CHUNK_SIZE CHUNK_OVERLAP [1, 2, 3]) = [1, 2, 3] ∧
    ([1, 2, 3] : List Nat) ≠ [] :=
  ⟨(chunk_roundtrip_nonempty [1, 2, 3]).1,
   (chunk_roundtrip_nonempty [1, 2, 3]).2 [1, 2, 3]
     (by rw [chunkTokens]; simp [CHUNK_SIZE, CHUNK_OVERLAP])⟩
